import Mathlib

/-!
Shallow embedding of the gx-org/backend type/shape model and host memory
model, with theorems settling the specification claims about them.

Conventions of the embedding:
- Go `uint32` / `uint16` values are `Nat` with explicit `% 2 ^ w` where
  truncation matters; Go `int` axis lengths are `Int`.
- A Go `panic` is modelled as `none` (or an `Except.error`); a returned
  `error` value is an `Option String` carrying the message.
- Byte slices are `List Nat`; a nil slice returned by an interface method
  is `none` (Go `len` and `copy` treat nil as a length-0 slice).
-/

/-- Go type `dtype.DataType` (a `uint32` enumeration). -/
abbrev DataType := Nat

/-- Go constant `dtype.Invalid` (iota value 0). -/
def DataType.Invalid : DataType := 0

/-- Go constant `dtype.Bool` (iota value 1). -/
def DataType.Bool : DataType := 1

/-- Go constant `dtype.Int` (iota value 2). -/
def DataType.Int : DataType := 2

/-- Go constant `dtype.Int32` (iota value 3). -/
def DataType.Int32 : DataType := 3

/-- Go constant `dtype.Int64` (iota value 4). -/
def DataType.Int64 : DataType := 4

/-- Go constant `dtype.Uint32` (iota value 5). -/
def DataType.Uint32 : DataType := 5

/-- Go constant `dtype.Uint64` (iota value 6). -/
def DataType.Uint64 : DataType := 6

/-- Go constant `dtype.Float32` (iota value 7). -/
def DataType.Float32 : DataType := 7

/-- Go constant `dtype.Float64` (iota value 8). -/
def DataType.Float64 : DataType := 8

/-- Go constant `dtype.MaxDataType` = 1 << 16. -/
def DataType.MaxDataType : DataType := 2 ^ 16

/-- Go size constant `dtype.BoolSize`. -/
def BoolSize : Nat := 1

/-- Go size constant `dtype.Int32Size`. -/
def Int32Size : Nat := 4

/-- Go size constant `dtype.Int64Size`. -/
def Int64Size : Nat := 8

/-- Go size constant `dtype.Uint32Size`. -/
def Uint32Size : Nat := 4

/-- Go size constant `dtype.Uint64Size`. -/
def Uint64Size : Nat := 8

/-- Go size constant `dtype.Float32Size`. -/
def Float32Size : Nat := 4

/-- Go size constant `dtype.Float64Size`. -/
def Float64Size : Nat := 8

/-- Go method `DataType.String` (dtype.go): a switch over the recognized
kinds, falling through to `"invalid"`. Note the switch has no case for
`DataType.Int` or `DataType.Invalid`. -/
def DataType.str (dt : DataType) : String :=
  if dt = DataType.Bool then "bool"
  else if dt = DataType.Int32 then "int32"
  else if dt = DataType.Int64 then "int64"
  else if dt = DataType.Uint32 then "uint32"
  else if dt = DataType.Uint64 then "uint64"
  else if dt = DataType.Float32 then "float32"
  else if dt = DataType.Float64 then "float64"
  else "invalid"

/-- Go function `dtype.Sizeof` (dtype.go): a switch over the recognized
kinds; the fall-through executes `panic("invalid datatype")`, modelled as
`none`. The switch has no case for `DataType.Int`. -/
def Sizeof (dt : DataType) : Option Nat :=
  if dt = DataType.Bool then some BoolSize
  else if dt = DataType.Int32 then some Int32Size
  else if dt = DataType.Int64 then some Int64Size
  else if dt = DataType.Uint32 then some Uint32Size
  else if dt = DataType.Uint64 then some Uint64Size
  else if dt = DataType.Float32 then some Float32Size
  else if dt = DataType.Float64 then some Float64Size
  else none

/-- Go struct `shape.Shape` (shape.go): a DataType and axis lengths
(Go `[]int`) in major-to-minor order. -/
structure Shape where
  DType : DataType
  AxisLengths : List Int

/-- Go method `Shape.IsAtomic` (shape.go): `len(s.AxisLengths) == 0`. -/
def Shape.IsAtomic (s : Shape) : Bool :=
  s.AxisLengths.length == 0

/-- Go method `Shape.Size` (shape.go): `size := 1` then `size *= d` over
the axis lengths, i.e. a left fold of multiplication. -/
def Shape.Size (s : Shape) : Int :=
  s.AxisLengths.foldl (fun acc d => acc * d) 1

/-- Go method `Shape.ByteSize` (shape.go): `dtype.Sizeof(s.DType) * s.Size()`.
`Sizeof` can panic, so the result is an `Option`. -/
def Shape.ByteSize (s : Shape) : Option Int :=
  (Sizeof s.DType).map (fun n => (n : Int) * s.Size)

/-- Formats one axis length as Go `fmt.Sprintf("[%d]", axisLength)`. -/
def bracketAxis (n : Int) : String :=
  "[" ++ toString n ++ "]"

/-- Go `strings.Join(axes, "")`: concatenation of the list, left to right. -/
def goJoin : List String → String
  | [] => ""
  | x :: xs => x ++ goJoin xs

/-- Go method `Shape.String` (shape.go): joins the bracketed axis lengths
and appends the dtype name. -/
def Shape.str (s : Shape) : String :=
  goJoin (s.AxisLengths.map bracketAxis) ++ DataType.str s.DType

/-- The canonical form the specification describes for a shape string:
each axis length in brackets, outer to inner, followed by the dtype name.
Stated independently of `Shape.str` (as a right fold) for comparison. -/
def canonicalShapeString (s : Shape) : String :=
  s.AxisLengths.foldr (fun a acc => bracketAxis a ++ acc) (DataType.str s.DType)

/-- Modelled from the spec: element-wise equality of two axis-length
sequences (same length, same value at every position), used by
`Shape.Equal`, whose implementation is absent from the sources (only
shape_test.go calls it). -/
def axisLengthsEqual : List Int → List Int → Bool
  | [], [] => true
  | a :: as, b :: bs => (a == b) && axisLengthsEqual as bs
  | _, _ => false

/-- Modelled from the spec: the method `Shape.Equal` is absent from the
sources (only shape_test.go calls it). Spec: two shapes are equal iff
DataType and axis-length sequences are element-wise equal. -/
def Shape.Equal (x y : Shape) : Bool :=
  (x.DType == y.DType) && axisLengthsEqual x.AxisLengths y.AxisLengths

/-- Go function `dtype.BFloat16FromFloat32`: `Bfloat16T(math.Float32bits(x) >> 16)`.
The float32 argument is represented by its 32-bit pattern (`math.Float32bits`
is the identity on patterns); the conversion to the 16-bit `Bfloat16T`
truncates modulo `2 ^ 16`. -/
def BFloat16FromFloat32 (bits : Nat) : Nat :=
  (bits >>> 16) % 2 ^ 16

/-- Go method `Bfloat16T.Float32`: `math.Float32frombits(uint32(f) << 16)`.
The result is the 32-bit pattern of the returned float32; the shift is a
`uint32` shift, so the result is reduced modulo `2 ^ 32`. -/
def Bfloat16T.Float32 (f : Nat) : Nat :=
  ((f % 2 ^ 16) <<< 16) % 2 ^ 32

/-- Modelled from the spec: a concrete state for the `HostBuffer`
interface (platform.go declares only the interface; no implementation is
in the sources). The spec prescribes a state machine per buffer —
Unlocked, Locked, Freed — over the byte contents; `locked` and `freed`
encode the state, `bytes` the contents. -/
structure HostBuffer where
  bytes : List Nat
  locked : Bool
  freed : Bool
deriving DecidableEq

/-- Modelled from the spec: `HostBuffer.Acquire` locks the buffer and
returns its bytes; returns nil (`none`) if the handle has been freed. -/
def HostBuffer.Acquire (b : HostBuffer) : Option (List Nat) × HostBuffer :=
  if b.freed then (none, b)
  else (some b.bytes, { b with locked := true })

/-- Modelled from the spec: `HostBuffer.Release` unlocks the buffer. -/
def HostBuffer.Release (b : HostBuffer) : HostBuffer :=
  { b with locked := false }

/-- Modelled from the spec: `HostBuffer.Free` permanently invalidates the
handle. -/
def HostBuffer.Free (b : HostBuffer) : HostBuffer :=
  { b with freed := true }

/-- Go built-in `copy(dst, src)`: writes the first `min(len(dst), len(src))`
elements of `src` over the front of `dst`, leaving the rest of `dst`. -/
def goCopy (dst src : List Nat) : List Nat :=
  src.take (min dst.length src.length) ++ dst.drop (min dst.length src.length)

/-- The Go error message built by `errors.Errorf` in `HostTransfer`. -/
def sizeMismatchMessage (srcLen dstLen : Nat) : String :=
  "cannot transfer data from a buffer of size " ++ toString srcLen ++
    " to a buffer of size " ++ toString dstLen

/-- Result of `HostTransfer`: the returned error and the two buffers after
the deferred releases have run. -/
structure TransferOut where
  err : Option String
  dstOut : HostBuffer
  srcOut : HostBuffer
deriving DecidableEq

/-- Go function `platform.HostTransfer(dstB, srcB)` (platform.go):
acquires src then dst (releases deferred on every path), returns a size
mismatch error when the acquired lengths differ, otherwise executes
`copy(src, dst)` — whose first argument is the destination of the Go
builtin, so the bytes of `dst` are written into the acquired `src` slice,
which aliases the contents of `srcB` — and returns nil. A nil slice from
`Acquire` behaves as a length-0 slice under `len` and `copy`. -/
def HostTransfer (dstB srcB : HostBuffer) : TransferOut :=
  let srcAcq := HostBuffer.Acquire srcB
  let src := srcAcq.1.getD []
  let dstAcq := HostBuffer.Acquire dstB
  let dst := dstAcq.1.getD []
  if src.length ≠ dst.length then
    { err := some (sizeMismatchMessage src.length dst.length)
      dstOut := HostBuffer.Release dstAcq.2
      srcOut := HostBuffer.Release srcAcq.2 }
  else
    let srcWritten :=
      if srcAcq.1.isSome then { srcAcq.2 with bytes := goCopy src dst }
      else srcAcq.2
    { err := none
      dstOut := HostBuffer.Release dstAcq.2
      srcOut := HostBuffer.Release srcWritten }

/-- Splits a byte list into consecutive chunks of `size` bytes: the memory
reinterpretation performed by `unsafe.Slice` in `dtype.ToSlice`. -/
def chunks (size : Nat) (data : List Nat) : List (List Nat) :=
  if _h : size = 0 ∨ data.length = 0 then []
  else data.take size :: chunks size (data.drop size)
termination_by data.length
decreasing_by simp only [List.length_drop]; omega

/-- Go generic function `dtype.ToSlice[T]` (dtype.go), with the element
type represented by its byte size: panics (first `Except.error`) when the
byte length is not a multiple of the element size; otherwise evaluates
`&data[0]`, which panics on an empty slice (second `Except.error`); else
returns the memory reinterpreted as `len(data)/size` elements. -/
def ToSlice (size : Nat) (data : List Nat) : Except String (List (List Nat)) :=
  if data.length % size ≠ 0 then Except.error "cast size mismatch"
  else if data.length = 0 then Except.error "index out of range"
  else Except.ok (chunks size data)

/-- C3 counterexample: the claim includes `Int` among the kinds for which
`Sizeof` returns a fixed never-zero constant, but `Sizeof DataType.Int`
takes the fatal path (the switch has no case for it). -/
theorem sizeof_int_fatal_cex : Sizeof DataType.Int = none := by decide

/-- C3 (amended): for every kind among Bool, Int32, Int64, Uint32, Uint64,
Float32, Float64, `Sizeof` returns a fixed, never-zero constant; for every
other DataType value — including the enumerated `Int` — `Sizeof` takes the
fatal path. -/
theorem sizeof_amended (dt : DataType) :
    (dt = DataType.Bool ∨ dt = DataType.Int32 ∨ dt = DataType.Int64 ∨
        dt = DataType.Uint32 ∨ dt = DataType.Uint64 ∨
        dt = DataType.Float32 ∨ dt = DataType.Float64 →
      ∃ n, Sizeof dt = some n ∧ 0 < n) ∧
    (¬(dt = DataType.Bool ∨ dt = DataType.Int32 ∨ dt = DataType.Int64 ∨
        dt = DataType.Uint32 ∨ dt = DataType.Uint64 ∨
        dt = DataType.Float32 ∨ dt = DataType.Float64) →
      Sizeof dt = none) := by
  constructor
  · rintro (h | h | h | h | h | h | h) <;> subst h <;>
      refine ⟨_, rfl, ?_⟩ <;> decide
  · intro h
    push_neg at h
    obtain ⟨h1, h2, h3, h4, h5, h6, h7⟩ := h
    simp [Sizeof, h1, h2, h3, h4, h5, h6, h7]

/-- C3 witness: the amended theorem applied at `Bool` (recognized, size 1)
and at `MaxDataType` (unrecognized, fatal). -/
theorem sizeof_amended_witness :
    (∃ n, Sizeof DataType.Bool = some n ∧ 0 < n) ∧
      Sizeof DataType.MaxDataType = none :=
  ⟨(sizeof_amended DataType.Bool).1 (Or.inl rfl),
    (sizeof_amended DataType.MaxDataType).2 (by decide)⟩

/-- C4: for every shape, `ByteSize` is `Size` multiplied by the byte size
of the dtype (both computed through `Sizeof`, which can be fatal, hence
the `Option`); a shape with an empty axis-length sequence has size 1 and
is atomic. -/
theorem shape_byteSize_size_atomic (s : Shape) :
    Shape.ByteSize s = (Sizeof s.DType).map (fun n => (n : Int) * Shape.Size s) ∧
    (s.AxisLengths = [] → Shape.Size s = 1 ∧ Shape.IsAtomic s = true) := by
  refine ⟨rfl, fun h => ⟨?_, ?_⟩⟩ <;> simp [Shape.Size, Shape.IsAtomic, h]

/-- C4 witness: the theorem applied at the rank-0 float32 shape. -/
theorem shape_byteSize_size_atomic_witness :
    Shape.Size ⟨DataType.Float32, []⟩ = 1 ∧
      Shape.IsAtomic ⟨DataType.Float32, []⟩ = true :=
  (shape_byteSize_size_atomic ⟨DataType.Float32, []⟩).2 rfl

/-- C8: for every host buffer, acquiring after freeing returns an absent
value (`none`), not a crash. -/
theorem acquire_after_free_absent (b : HostBuffer) :
    (HostBuffer.Acquire (HostBuffer.Free b)).1 = none := by
  simp [HostBuffer.Acquire, HostBuffer.Free]

/-- C10: the enumerated constant `Int` — a distinct member of the public
enumeration sitting between `Bool` and `Int32` — is treated as
unrecognized by every operation: `Sizeof` takes the fatal path on it and
its string form is "invalid". -/
theorem int_treated_unrecognized :
    Sizeof DataType.Int = none ∧
    DataType.str DataType.Int = "invalid" ∧
    DataType.Int ≠ DataType.Int32 ∧
    DataType.Int ≠ DataType.Int64 ∧
    DataType.Bool < DataType.Int ∧
    DataType.Int < DataType.Int32 := by
  refine ⟨by decide, ?_, by decide, by decide, by decide, by decide⟩
  decide

/-- C5: the bfloat16 round trip of a float32 bit pattern clears the low
16 bits of the pattern and keeps the upper 16 (sign, exponent, upper
mantissa), so a pattern whose low 16 bits are zero round-trips exactly. -/
theorem bfloat16_roundtrip_bits (bits : Nat) (h : bits < 2 ^ 32) :
    Bfloat16T.Float32 (BFloat16FromFloat32 bits) = bits / 2 ^ 16 * 2 ^ 16 ∧
    (bits % 2 ^ 16 = 0 →
      Bfloat16T.Float32 (BFloat16FromFloat32 bits) = bits) := by
  unfold Bfloat16T.Float32 BFloat16FromFloat32
  rw [Nat.shiftRight_eq_div_pow, Nat.shiftLeft_eq]
  norm_num at h ⊢
  omega

/-- C5 witness: the theorem applied at the pattern of `1.0f`
(`0x3F800000`), whose low 16 bits are zero, so it round-trips exactly. -/
theorem bfloat16_roundtrip_bits_witness :
    Bfloat16T.Float32 (BFloat16FromFloat32 1065353216) = 1065353216 :=
  (bfloat16_roundtrip_bits 1065353216 (by norm_num)).2 (by norm_num)

/-- Element-wise equality of axis-length sequences coincides with list
equality. -/
theorem axisLengthsEqual_iff : ∀ a b : List Int, axisLengthsEqual a b = true ↔ a = b := by
  intro a
  induction a with
  | nil => intro b; cases b <;> simp [axisLengthsEqual]
  | cons x xs ih =>
    intro b
    cases b with
    | nil => simp [axisLengthsEqual]
    | cons y ys => simp [axisLengthsEqual, ih]

/-- C6: two shapes are `Equal` exactly when their dtypes agree and their
axis-length sequences are equal element-wise (same length, same value at
every position, i.e. equal as lists). -/
theorem shape_equal_iff (x y : Shape) :
    Shape.Equal x y = true ↔ x.DType = y.DType ∧ x.AxisLengths = y.AxisLengths := by
  simp [Shape.Equal, axisLengthsEqual_iff]

/-- C6 witness: the theorem applied at two structurally equal float32
shapes of rank 2. -/
theorem shape_equal_iff_witness :
    Shape.Equal ⟨DataType.Float32, [1, 2]⟩ ⟨DataType.Float32, [1, 2]⟩ = true :=
  (shape_equal_iff ⟨DataType.Float32, [1, 2]⟩ ⟨DataType.Float32, [1, 2]⟩).mpr
    ⟨rfl, rfl⟩

/-- Concatenating after a left-to-right join equals the right fold that
prepends each bracketed axis. -/
theorem goJoin_map_foldr (l : List Int) (d : String) :
    goJoin (l.map bracketAxis) ++ d =
      l.foldr (fun a acc => bracketAxis a ++ acc) d := by
  induction l with
  | nil => simp [goJoin]
  | cons a as ih =>
    simp only [List.map_cons, goJoin, List.foldr_cons, String.append_assoc, ih]

/-- C7: every shape prints in the canonical form: each axis length in
brackets, outer to inner, followed by the dtype name; the dtype name is
"invalid" for every DataType value outside the recognized enumeration. -/
theorem shape_string_canonical (s : Shape) :
    Shape.str s = canonicalShapeString s ∧
    (∀ dt : DataType,
      ¬(dt = DataType.Bool ∨ dt = DataType.Int32 ∨ dt = DataType.Int64 ∨
          dt = DataType.Uint32 ∨ dt = DataType.Uint64 ∨
          dt = DataType.Float32 ∨ dt = DataType.Float64) →
      DataType.str dt = "invalid") := by
  constructor
  · exact goJoin_map_foldr s.AxisLengths (DataType.str s.DType)
  · intro dt h
    push_neg at h
    obtain ⟨h1, h2, h3, h4, h5, h6, h7⟩ := h
    simp [DataType.str, h1, h2, h3, h4, h5, h6, h7]

/-- C7 witness: the theorem applied at a rank-2 float32 shape, and its
second part at the unrecognized value `Invalid`. -/
theorem shape_string_canonical_witness :
    Shape.str ⟨DataType.Float32, [2, 3]⟩ =
        canonicalShapeString ⟨DataType.Float32, [2, 3]⟩ ∧
      DataType.str DataType.Invalid = "invalid" :=
  ⟨(shape_string_canonical ⟨DataType.Float32, [2, 3]⟩).1,
    (shape_string_canonical ⟨DataType.Float32, [2, 3]⟩).2 DataType.Invalid
      (by decide)⟩

/-- C1 (code bug, concrete evaluation): transferring from a source buffer
holding byte 1 into a destination holding byte 0 (equal lengths, neither
freed) returns no error and releases both buffers, but the destination
still holds byte 0 — it never receives the source byte — while the source
has been overwritten with the destination byte: the arguments of the Go
`copy` builtin are reversed in the source of `HostTransfer`. -/
theorem hostTransfer_reversed_copy :
    (HostTransfer ⟨[0], false, false⟩ ⟨[1], false, false⟩).err = none ∧
    (HostTransfer ⟨[0], false, false⟩ ⟨[1], false, false⟩).dstOut.bytes = [0] ∧
    (HostTransfer ⟨[0], false, false⟩ ⟨[1], false, false⟩).dstOut.bytes ≠ [1] ∧
    (HostTransfer ⟨[0], false, false⟩ ⟨[1], false, false⟩).srcOut.bytes = [0] ∧
    (HostTransfer ⟨[0], false, false⟩ ⟨[1], false, false⟩).dstOut.locked = false ∧
    (HostTransfer ⟨[0], false, false⟩ ⟨[1], false, false⟩).srcOut.locked = false := by
  decide

/-- C2: when the two acquired byte slices differ in length (neither buffer
freed), `HostTransfer` returns the size-mismatch error, modifies the bytes
of neither buffer, and both buffers end released (unlocked). -/
theorem hostTransfer_mismatch_no_copy (dstB srcB : HostBuffer)
    (hd : dstB.freed = false) (hs : srcB.freed = false)
    (hne : srcB.bytes.length ≠ dstB.bytes.length) :
    (HostTransfer dstB srcB).err =
        some (sizeMismatchMessage srcB.bytes.length dstB.bytes.length) ∧
    (HostTransfer dstB srcB).dstOut.bytes = dstB.bytes ∧
    (HostTransfer dstB srcB).srcOut.bytes = srcB.bytes ∧
    (HostTransfer dstB srcB).dstOut.locked = false ∧
    (HostTransfer dstB srcB).srcOut.locked = false := by
  simp [HostTransfer, HostBuffer.Acquire, HostBuffer.Release, hd, hs, hne]

/-- C2 witness: the theorem applied to a two-byte destination and a
one-byte source. -/
theorem hostTransfer_mismatch_no_copy_witness :
    (HostTransfer ⟨[5, 6], false, false⟩ ⟨[7], false, false⟩).err =
        some (sizeMismatchMessage 1 2) ∧
    (HostTransfer ⟨[5, 6], false, false⟩ ⟨[7], false, false⟩).dstOut.bytes = [5, 6] ∧
    (HostTransfer ⟨[5, 6], false, false⟩ ⟨[7], false, false⟩).srcOut.bytes = [7] ∧
    (HostTransfer ⟨[5, 6], false, false⟩ ⟨[7], false, false⟩).dstOut.locked = false ∧
    (HostTransfer ⟨[5, 6], false, false⟩ ⟨[7], false, false⟩).srcOut.locked = false :=
  hostTransfer_mismatch_no_copy ⟨[5, 6], false, false⟩ ⟨[7], false, false⟩
    rfl rfl (by decide)

/-- A list whose length is `size * k` splits into exactly `k` chunks. -/
theorem chunks_mul_length :
    ∀ (k size : Nat), 0 < size → ∀ data : List Nat,
      data.length = size * k → (chunks size data).length = k := by
  intro k
  induction k with
  | zero =>
    intro size hs data hlen
    have h0 : data.length = 0 := by simpa using hlen
    rw [chunks]
    simp [h0]
  | succ k ih =>
    intro size hs data hlen
    have hpos : data.length ≠ 0 := by
      rw [hlen]
      exact Nat.ne_of_gt (Nat.mul_pos hs (Nat.succ_pos k))
    rw [chunks, dif_neg (by push_neg; exact ⟨Nat.pos_iff_ne_zero.mp hs, hpos⟩)]
    simp only [List.length_cons]
    rw [ih size hs (data.drop size)
      (by rw [List.length_drop, hlen, Nat.mul_succ, Nat.add_sub_cancel])]

/-- C9: with a positive element size, `ToSlice` panics on an empty byte
slice (the `&data[0]` indexing, reached because an empty length passes the
divisibility check); on a non-empty slice whose length is a multiple of
the element size it returns exactly `len(data)/size` elements; on a
length that is not a multiple it panics at the divisibility check. -/
theorem toSlice_panics_and_length (size : Nat) (data : List Nat)
    (hsz : 0 < size) :
    (data = [] → ToSlice size data = Except.error "index out of range") ∧
    (data ≠ [] → data.length % size = 0 →
      ToSlice size data = Except.ok (chunks size data) ∧
      (chunks size data).length = data.length / size) ∧
    (data.length % size ≠ 0 →
      ToSlice size data = Except.error "cast size mismatch") := by
  refine ⟨?_, ?_, ?_⟩
  · intro h
    subst h
    simp [ToSlice]
  · intro h1 h2
    refine ⟨by simp [ToSlice, h2, List.length_eq_zero, h1], ?_⟩
    obtain ⟨k, hk⟩ := Nat.dvd_of_mod_eq_zero h2
    rw [chunks_mul_length k size hsz data hk, hk,
      Nat.mul_div_cancel_left _ hsz]
  · intro h
    simp [ToSlice, h]

/-- C9 witness: the theorem applied with element size 4 (int32/uint32/
float32) to an 8-byte slice, giving 2 elements. -/
theorem toSlice_panics_and_length_witness :
    ToSlice 4 [1, 2, 3, 4, 5, 6, 7, 8] =
        Except.ok (chunks 4 [1, 2, 3, 4, 5, 6, 7, 8]) ∧
      (chunks 4 [1, 2, 3, 4, 5, 6, 7, 8]).length = [1, 2, 3, 4, 5, 6, 7, 8].length / 4 :=
  (toSlice_panics_and_length 4 [1, 2, 3, 4, 5, 6, 7, 8] (by decide)).2.1
    (by decide) (by decide)
